import Mathlib

/-!
Shallow embedding of the ip_tracking IP reputation engine
(middleware.py, tasks.py, models.py, block_ip.py) and proofs about it.

Timestamps are modelled as integers counted in minutes; 24 hours = 1440,
7 days = 10080. Machine floats (latitude/longitude) only pass through the
code unexamined, so they are modelled as opaque optional integers.
-/

namespace IpTracking

/-! ## Geolocation data model (middleware.py, models.py GeolocationCache) -/

/-- The common geolocation attribute set built by the middleware
(the dict returned by get_geolocation_data / fetch_geolocation_data). -/
structure GeoData where
  country : Option String
  country_name : Option String
  city : Option String
  region : Option String
  latitude : Option Int
  longitude : Option Int
  timezone : Option String
  isp : Option String
deriving DecidableEq, Repr

/-- The all-null attribute set. -/
def allNullGeo : GeoData :=
  { country := none, country_name := none, city := none, region := none,
    latitude := none, longitude := none, timezone := none, isp := none }

/-- JSON payload of the primary provider (ip-api.com); every field optional,
mirroring dict.get returning None for absent keys. -/
structure IpApiResponse where
  status : Option String
  country : Option String
  countryCode : Option String
  city : Option String
  regionName : Option String
  lat : Option Int
  lon : Option Int
  timezone : Option String
  isp : Option String
deriving DecidableEq, Repr

/-- JSON payload of the fallback provider (api.country.is). -/
structure CountryIsResponse where
  country : Option String
deriving DecidableEq, Repr

/-- Outcome of an HTTP call: an exception/timeout, or a status code with a
parsed body. -/
inductive HttpResult (α : Type) where
  | err : HttpResult α
  | ok : Nat → α → HttpResult α
deriving DecidableEq, Repr

/-- IPLoggingMiddleware.fetch_geolocation_data: try ip-api.com (success iff
HTTP 200 and payload status == "success"), fall back to api.country.is
(success iff HTTP 200), else return the all-null set. -/
def countryIsFallback (p2 : HttpResult CountryIsResponse) : GeoData :=
  match p2 with
  | .err => allNullGeo
  | .ok code d =>
      if code = 200 then { allNullGeo with country := d.country }
      else allNullGeo

def fetch_geolocation_data (p1 : HttpResult IpApiResponse)
    (p2 : HttpResult CountryIsResponse) : GeoData :=
  let fallback : GeoData := countryIsFallback p2
  match p1 with
  | .err => fallback
  | .ok code d =>
      if code = 200 then
        if d.status = some "success" then
          { country := d.countryCode, country_name := d.country, city := d.city,
            region := d.regionName, latitude := d.lat, longitude := d.lon,
            timezone := d.timezone, isp := d.isp }
        else fallback
      else fallback

/-- str.startswith, computed on the character lists of the strings. -/
def strStartsWith (s pre : String) : Bool := pre.data.isPrefixOf s.data

/-- IPLoggingMiddleware.is_private_ip, verbatim: string-prefix tests for
"10.", "172.16.", "192.168." and equality with "127.0.0.1" and "::1". -/
def is_private_ip (ip : String) : Bool :=
  strStartsWith ip "10." || strStartsWith ip "172.16." ||
  strStartsWith ip "192.168." || ip == "127.0.0.1" || ip == "::1"

/-- The two cache tiers read and written by get_geolocation_data: the Django
cache (ephemeral, keyed by "ip_geolocation_" ++ ip) and the GeolocationCache
table (durable, keyed by ip). Both store the write instant: the Django cache
entry because cache.set is called with timeout=86400 (24 hours), the table
row as its auto_now updated_at column. -/
structure ResolverState where
  djangoCache : String → Option (GeoData × Int)
  dbCache : String → Option (GeoData × Int)

/-- GeolocationCache.is_expired: entry older than 24 hours (1440 minutes). -/
def geo_cache_expired (now updated_at : Int) : Bool :=
  decide (updated_at + 1440 < now)

/-- cache.get against an entry written by cache.set with timeout=86400:
the value is served only within 1440 minutes of its write, after which the
entry has expired and the lookup misses. -/
def djangoCacheGet (now : Int) (s : ResolverState) (k : String) :
    Option GeoData :=
  match s.djangoCache k with
  | some (d, t) => if now < t + 1440 then some d else none
  | none => none

/-- Pointwise update of a keyed store. -/
def setKey {α : Type} (m : String → Option α) (k : String) (v : α) :
    String → Option α :=
  fun x => if x = k then some v else m x

/-- Django cache key used by the middleware. -/
def cacheKey (ip : String) : String := "ip_geolocation_" ++ ip

/-- Result of one call to get_geolocation_data: the returned attribute dict,
the cache state afterwards, and whether the external provider chain was hit. -/
structure ResolveResult where
  data : GeoData
  state : ResolverState
  externalCalled : Bool

/-- IPLoggingMiddleware.get_geolocation_data: private short-circuit, then
Django cache probe (24h timeout), then non-expired database cache probe
(populating the Django cache on hit, again with the 24h timeout), else
fetch from the providers and write the result — whatever it is — to both
tiers at time now. -/
def get_geolocation_data (now : Int) (p1 : HttpResult IpApiResponse)
    (p2 : HttpResult CountryIsResponse) (ip : String) (s : ResolverState) :
    ResolveResult :=
  if is_private_ip ip then ⟨allNullGeo, s, false⟩
  else
    match djangoCacheGet now s (cacheKey ip) with
    | some d => ⟨d, s, false⟩
    | none =>
      let dbHit : Option GeoData :=
        match s.dbCache ip with
        | some (d, t) => if geo_cache_expired now t then none else some d
        | none => none
      match dbHit with
      | some d =>
          ⟨d, { s with djangoCache := setKey s.djangoCache (cacheKey ip) (d, now) },
            false⟩
      | none =>
          let g := fetch_geolocation_data p1 p2
          ⟨g, ⟨setKey s.djangoCache (cacheKey ip) (g, now),
            setKey s.dbCache ip (g, now)⟩, true⟩

/-- State with both cache tiers empty. -/
def emptyResolverState : ResolverState := ⟨fun _ => none, fun _ => none⟩

/-- The primary provider call failed, timed out, returned non-200, or its
payload did not carry status "success". -/
def provider1Failed : HttpResult IpApiResponse → Prop
  | .err => True
  | .ok code d => ¬(code = 200 ∧ d.status = some "success")

/-- The fallback provider call failed, timed out, or returned non-200. -/
def provider2Failed : HttpResult CountryIsResponse → Prop
  | .err => True
  | .ok code _ => ¬ code = 200

/-! ## Request log, blocklist and suspicion data model (models.py) -/

/-- RequestLog row: ip, timestamp, path, plus the resolved geolocation
attributes (nullable, carried opaquely). -/
structure RequestLog where
  ip_address : String
  timestamp : Int
  path : String
  geo : GeoData
deriving DecidableEq, Repr

/-- BlockedIP row (ip_address is unique in the table). -/
structure BlockedIP where
  ip_address : String
  created_at : Int
  reason : Option String
deriving DecidableEq, Repr

/-- SuspiciousIP.SuspicionReason choices. -/
inductive SuspicionReason where
  | high_traffic
  | sensitive_access
  | multiple_failures
  | unusual_pattern
  | scanning
deriving DecidableEq, Repr

/-- SuspiciousIP row (ip_address is unique in the table). -/
structure SuspiciousIP where
  ip_address : String
  reason : SuspicionReason
  description : String
  first_detected : Int
  last_detected : Int
  request_count : Int
  sensitive_paths : List String
  is_active : Bool
deriving DecidableEq, Repr

/-- Database state seen by the background tasks. -/
structure EngineState where
  logs : List RequestLog
  suspicious : List SuspiciousIP
  blocked : List BlockedIP

/-! ## Detector (tasks.py) -/

/-- SuspiciousIP.objects.get_or_create keyed on the unique ip_address,
followed by the save of the update branch when the row already exists:
if some row carries the ip it is updated in place, otherwise a fresh row
(the defaults) is appended. -/
def upsert (ip : String) (mk : SuspiciousIP) (upd : SuspiciousIP → SuspiciousIP)
    (l : List SuspiciousIP) : List SuspiciousIP :=
  if l.any (fun r => r.ip_address == ip) then
    l.map (fun r => if r.ip_address == ip then upd r else r)
  else l ++ [mk]

/-- The ip_address values of the currently active SuspiciousIP rows — the
exclusion subquery evaluated at the start of each detection pass. -/
def activeIps (l : List SuspiciousIP) : List String :=
  (l.filter (fun r => r.is_active)).map (fun r => r.ip_address)

/-- Distinct values in first-appearance order (the values().annotate
grouping of a queryset, given a deterministic row order). -/
def distinctList {α : Type} [DecidableEq α] (l : List α) : List α :=
  l.foldl (fun acc x => if x ∈ acc then acc else acc ++ [x]) []

/-- Count of log rows carrying the given ip. -/
def countIp (logs : List RequestLog) (ip : String) : Nat :=
  (logs.filter (fun e => e.ip_address == ip)).length

/-- Count of log rows carrying the given ip and path. -/
def countIpPath (logs : List RequestLog) (ip path : String) : Nat :=
  (logs.filter (fun e => e.ip_address == ip && e.path == path)).length

/-- Defaults of the high-traffic get_or_create (auto_now_add and auto_now
set both detection stamps to now on creation). -/
def mkHighTraffic (now : Int) (ip : String) (cnt : Nat) : SuspiciousIP :=
  { ip_address := ip, reason := .high_traffic,
    description := "High traffic detected: " ++ toString cnt ++
      " requests in the last hour",
    first_detected := now, last_detected := now,
    request_count := Int.ofNat cnt, sensitive_paths := [], is_active := true }

/-- Update branch of the high-traffic pass: overwrite reason, description
and request_count, refresh last_detected, reactivate. -/
def updHighTraffic (now : Int) (cnt : Nat) (r : SuspiciousIP) : SuspiciousIP :=
  { r with
    reason := .high_traffic,
    description := "High traffic detected: " ++ toString cnt ++
      " requests in the last hour",
    request_count := Int.ofNat cnt, last_detected := now, is_active := true }

/-- Per-ip body of the high-traffic loop. -/
def highStep (now : Int) (window : List RequestLog)
    (acc : List SuspiciousIP) (ip : String) : List SuspiciousIP :=
  upsert ip (mkHighTraffic now ip (countIp window ip))
    (updHighTraffic now (countIp window ip)) acc

/-- tasks.detect_high_traffic_ips: group window rows by ip, keep counts at
or above the threshold, exclude ips with an active SuspiciousIP row, and
upsert each survivor. -/
def detect_high_traffic_ips (now time_threshold : Int) (threshold : Nat)
    (logs : List RequestLog) (susp : List SuspiciousIP) : List SuspiciousIP :=
  let window := logs.filter (fun e => decide (time_threshold ≤ e.timestamp))
  let act := activeIps susp
  let targets := (distinctList (window.map (fun e => e.ip_address))).filter
    (fun ip => decide (threshold ≤ countIp window ip) && !(act.contains ip))
  targets.foldl (highStep now window) susp

/-- The fixed sensitive path list of detect_suspicious_ips. -/
def sensitivePathsList : List String :=
  ["/admin/", "/admin/login/", "/api/login/", "/login/",
   "/api/admin/", "/wp-admin/", "/phpmyadmin/", "/server-status/",
   "/config/", "/env/", "/.env", "/.git/", "/backup/"]

/-- set(old).add(path) of the sensitive-path update branch, as a
duplicate-free list. -/
def pathUnion (paths : List String) (p : String) : List String :=
  if p ∈ paths then paths else paths ++ [p]

/-- Comma join (str.join with ", ") over the accumulated path set. -/
def joinPaths : List String → String
  | [] => ""
  | [p] => p
  | p :: q :: rest => p ++ ", " ++ joinPaths (q :: rest)

/-- Defaults of the sensitive-path get_or_create. -/
def mkSensitive (now : Int) (ip path : String) (cnt : Nat) : SuspiciousIP :=
  { ip_address := ip, reason := .sensitive_access,
    description := "Access to sensitive path: " ++ path ++ " (" ++
      toString cnt ++ " times)",
    first_detected := now, last_detected := now,
    request_count := Int.ofNat cnt, sensitive_paths := [path],
    is_active := true }

/-- Update branch of the sensitive-path pass: union the path in,
accumulate request_count, refresh last_detected, reactivate. -/
def updSensitive (now : Int) (path : String) (cnt : Nat) (r : SuspiciousIP) :
    SuspiciousIP :=
  let newPaths := pathUnion r.sensitive_paths path
  { r with
    reason := .sensitive_access,
    description := "Access to sensitive paths: " ++ joinPaths newPaths,
    request_count := r.request_count + Int.ofNat cnt,
    sensitive_paths := newPaths, last_detected := now, is_active := true }

/-- Per-(ip, path) body of the sensitive-path loop. -/
def sensitiveStep (now : Int) (window : List RequestLog)
    (acc : List SuspiciousIP) (pr : String × String) : List SuspiciousIP :=
  upsert pr.1 (mkSensitive now pr.1 pr.2 (countIpPath window pr.1 pr.2))
    (updSensitive now pr.2 (countIpPath window pr.1 pr.2)) acc

/-- tasks.detect_sensitive_path_access: group window rows with a sensitive
path by (ip, path), exclude ips with an active SuspiciousIP row as of the
start of the pass, and upsert each surviving pair. -/
def detect_sensitive_path_access (now time_threshold : Int)
    (sensitive_paths : List String) (logs : List RequestLog)
    (susp : List SuspiciousIP) : List SuspiciousIP :=
  let window := logs.filter (fun e =>
    decide (time_threshold ≤ e.timestamp) && sensitive_paths.contains e.path)
  let act := activeIps susp
  let targets := (distinctList (window.map
      (fun e => (e.ip_address, e.path)))).filter
    (fun pr => !(act.contains pr.1))
  targets.foldl (sensitiveStep now window) susp

/-- The login path list of detect_auth_failures. -/
def loginPathsList : List String := ["/api/login/", "/login/", "/admin/login/"]

/-- Defaults of the auth-failure get_or_create. -/
def mkAuthFailures (now : Int) (ip : String) (cnt : Nat) : SuspiciousIP :=
  { ip_address := ip, reason := .multiple_failures,
    description := "Multiple authentication attempts: " ++ toString cnt ++
      " attempts in the last hour",
    first_detected := now, last_detected := now,
    request_count := Int.ofNat cnt, sensitive_paths := [], is_active := true }

/-- Update branch of the auth-failure pass. -/
def updAuthFailures (now : Int) (cnt : Nat) (r : SuspiciousIP) : SuspiciousIP :=
  { r with
    reason := .multiple_failures,
    description := "Multiple authentication attempts: " ++ toString cnt ++
      " attempts in the last hour",
    request_count := Int.ofNat cnt, last_detected := now, is_active := true }

/-- Per-ip body of the auth-failure loop. -/
def authStep (now : Int) (window : List RequestLog)
    (acc : List SuspiciousIP) (ip : String) : List SuspiciousIP :=
  upsert ip (mkAuthFailures now ip (countIp window ip))
    (updAuthFailures now (countIp window ip)) acc

/-- tasks.detect_auth_failures: window rows whose path is a login path,
grouped by ip, kept at 5 or more attempts, excluding active ips. -/
def detect_auth_failures (now time_threshold : Int) (logs : List RequestLog)
    (susp : List SuspiciousIP) : List SuspiciousIP :=
  let window := logs.filter (fun e =>
    decide (time_threshold ≤ e.timestamp) && loginPathsList.contains e.path)
  let act := activeIps susp
  let targets := (distinctList (window.map (fun e => e.ip_address))).filter
    (fun ip => decide (5 ≤ countIp window ip) && !(act.contains ip))
  targets.foldl (authStep now window) susp

/-- tasks.cleanup_old_suspicious_ips: delete rows with last_detected
strictly older than 7 days (10080 minutes) and is_active false; every
other row is kept. -/
def cleanup_old_suspicious_ips (now : Int) (susp : List SuspiciousIP) :
    List SuspiciousIP :=
  susp.filter (fun r => !(decide (r.last_detected < now - 10080) && !r.is_active))

/-- Configuration snapshot read at the start of detect_suspicious_ips
(defaults 100 and 60). -/
structure DetectorConfig where
  high_traffic_threshold : Nat
  detection_period_minutes : Int
deriving DecidableEq, Repr

/-- tasks.detect_suspicious_ips: the three passes in order followed by the
retention sweep, over a window starting detection_period_minutes ago. -/
def detect_suspicious_ips (now : Int) (cfg : DetectorConfig) (s : EngineState) :
    EngineState :=
  let t := now - cfg.detection_period_minutes
  let s1 := detect_high_traffic_ips now t cfg.high_traffic_threshold s.logs
    s.suspicious
  let s2 := detect_sensitive_path_access now t sensitivePathsList s.logs s1
  let s3 := detect_auth_failures now t s.logs s2
  { s with suspicious := cleanup_old_suspicious_ips now s3 }

/-! ## Auto-Blocker (tasks.py) -/

/-- Reason text generated for an automatic block. -/
def autoBlockReason (cnt : Nat) : String :=
  "Automatically blocked due to " ++ toString cnt ++ " suspicious activities"

/-- tasks.auto_block_suspicious_ips: group the active SuspiciousIP rows by
ip, keep ips whose row count meets auto_block_threshold, and create a
BlockedIP for each one not already blocked (the already-blocked check runs
inside the loop, against rows created earlier in the same run too).
Only the BlockedIP table is written. -/
def auto_block_suspicious_ips (now : Int) (auto_block_threshold : Nat)
    (s : EngineState) : EngineState :=
  let act := s.suspicious.filter (fun r => r.is_active)
  let suspCount := fun ip =>
    (act.filter (fun r => r.ip_address == ip)).length
  let ips := (distinctList (act.map (fun r => r.ip_address))).filter
    (fun ip => decide (auto_block_threshold ≤ suspCount ip))
  let blocked := ips.foldl (fun acc ip =>
    if acc.any (fun b => b.ip_address == ip) then acc
    else acc ++ [{ ip_address := ip, created_at := now,
                   reason := some (autoBlockReason (suspCount ip)) }]) s.blocked
  { s with blocked := blocked }

/-! ## Request pipeline (middleware.py IPLoggingMiddleware.__call__) -/

/-- IPLoggingMiddleware.is_ip_blocked: point lookup in the BlockedIP table. -/
def is_ip_blocked (blocked : List BlockedIP) (ip : String) : Bool :=
  blocked.any (fun b => b.ip_address == ip)

/-- The HttpResponseForbidden body built for a blocked ip. -/
def forbiddenMessage (ip : String) : String :=
  "Access denied. Your IP address (" ++ ip ++ ") has been blocked."

/-- Response produced by the middleware. -/
inductive MiddlewareResponse where
  | forbidden : String → MiddlewareResponse
  | passedThrough : MiddlewareResponse
deriving DecidableEq, Repr

/-- Full state touched by the request path. -/
structure SystemState where
  resolver : ResolverState
  engine : EngineState

/-- Result of one middleware call: the response, the state afterwards, and
whether get_geolocation_data was invoked. -/
structure CallResult where
  response : MiddlewareResponse
  state : SystemState
  resolverCalled : Bool

/-- IPLoggingMiddleware.call on a request from ip to path: blocked ips get
a 403 embedding the ip and nothing else happens; otherwise the resolver
runs and a RequestLog row is appended with the resolved attributes. -/
def middleware_call (now : Int) (p1 : HttpResult IpApiResponse)
    (p2 : HttpResult CountryIsResponse) (ip path : String) (s : SystemState) :
    CallResult :=
  if is_ip_blocked s.engine.blocked ip then
    ⟨.forbidden (forbiddenMessage ip), s, false⟩
  else
    let r := get_geolocation_data now p1 p2 ip s.resolver
    ⟨.passedThrough,
      ⟨r.state,
        { s.engine with logs := s.engine.logs ++
            [{ ip_address := ip, timestamp := now, path := path, geo := r.data }] }⟩,
      true⟩

/-! ## Blocklist CLI (block_ip.py Command.handle, models.py BlockedIP) -/

/-- str.split on a single separator character, on character lists
(preserves empty segments, as Python and String.splitOn do). -/
def splitOnChar (sep : Char) : List Char → List (List Char)
  | [] => [[]]
  | c :: rest =>
      if c = sep then [] :: splitOnChar sep rest
      else
        match splitOnChar sep rest with
        | [] => [[c]]
        | g :: gs => (c :: g) :: gs

/-- Decimal digit value accumulator for a digit list. -/
def digitsToNat : List Char → Nat → Nat
  | [], acc => acc
  | c :: rest, acc => digitsToNat rest (acc * 10 + (c.toNat - 48))

/-- A part starting with a redundant leading zero (rejected by
ipaddress.IPv4Address). -/
def noLeadingZero : List Char → Bool
  | '0' :: _ :: _ => false
  | _ => true

/-- One IPv4 dotted-quad part as accepted by ipaddress.ip_address: one to
three decimal digits, no redundant leading zero, value at most 255. -/
def isValidIpv4Part (p : List Char) : Bool :=
  decide (0 < p.length) && decide (p.length ≤ 3) &&
  p.all Char.isDigit && noLeadingZero p &&
  decide (digitsToNat p 0 ≤ 255)

/-- IPv4 recognizer modelling ipaddress.IPv4Address parsing. -/
def isValidIpv4 (s : String) : Bool :=
  let parts := splitOnChar '.' s.data
  parts.length == 4 && parts.all isValidIpv4Part

/-- One IPv6 hextet: one to four hexadecimal digits. -/
def isValidIpv6Group (p : List Char) : Bool :=
  decide (0 < p.length) && decide (p.length ≤ 4) &&
  p.all (fun c => c.isDigit || "abcdefABCDEF".data.contains c)

/-- str.split on the two-character separator "::", leftmost first. -/
def splitOnDoubleColon : List Char → List (List Char)
  | [] => [[]]
  | ':' :: ':' :: rest => [] :: splitOnDoubleColon rest
  | c :: rest =>
      match splitOnDoubleColon rest with
      | [] => [[c]]
      | g :: gs => (c :: g) :: gs

/-- IPv6 recognizer modelling ipaddress.IPv6Address parsing: eight hextets,
or a single "::" compression with at most seven hextets around it. -/
def isValidIpv6 (s : String) : Bool :=
  match splitOnDoubleColon s.data with
  | [whole] =>
      let gs := splitOnChar ':' whole
      gs.length == 8 && gs.all isValidIpv6Group
  | [l, r] =>
      let lg := if l.isEmpty then [] else splitOnChar ':' l
      let rg := if r.isEmpty then [] else splitOnChar ':' r
      decide (lg.length + rg.length ≤ 7) &&
      lg.all isValidIpv6Group && rg.all isValidIpv6Group
  | _ => false

/-- ipaddress.ip_address succeeding on the literal (IPv4 or IPv6). -/
def is_valid_ip (s : String) : Bool := isValidIpv4 s || isValidIpv6 s

/-- Per-ip outcome reported by the block_ip command. -/
inductive BlockOutcome where
  | created
  | alreadyExists
  | invalid
deriving DecidableEq, Repr

/-- Command.handle for a single ip: validate with ipaddress.ip_address
(invalid on failure), then BlockedIP.objects.get_or_create on the unique
ip_address — an existing row is reported, never duplicated. -/
def block_ip (now : Int) (ip : String) (reason : Option String)
    (blocked : List BlockedIP) : BlockOutcome × List BlockedIP :=
  if !(is_valid_ip ip) then (.invalid, blocked)
  else if blocked.any (fun b => b.ip_address == ip) then (.alreadyExists, blocked)
  else (.created, blocked ++ [{ ip_address := ip, created_at := now,
                                reason := reason }])

/-! ## Spec-side range predicates and invariants used by the claims -/

/-- Dotted-quad rendering of four octets. -/
def ipv4String (a b c d : Nat) : String :=
  toString a ++ "." ++ toString b ++ "." ++ toString c ++ "." ++ toString d

/-- Membership of a.b.c.d in 172.16.0.0/12, stated from the spec text. -/
def inRange172_16_12 (a b : Nat) : Prop := a = 172 ∧ 16 ≤ b ∧ b ≤ 31

/-- At most one SuspiciousIP row per ip (the unique=True constraint on
SuspiciousIP.ip_address). -/
def uniqueIps (l : List SuspiciousIP) : Prop :=
  l.Pairwise (fun a b => a.ip_address ≠ b.ip_address)

/-! ## Concrete scenarios referenced by the claims -/

/-- Empty engine state. -/
def emptyEngine : EngineState := ⟨[], [], []⟩

/-- C5 scenario: 150 requests from one ip, timestamped 100. -/
def c5entry : RequestLog :=
  { ip_address := "203.0.113.5", timestamp := 100, path := "/", geo := allNullGeo }

/-- C5 scenario log: 150 identical rows. -/
def c5logs : List RequestLog := List.replicate 150 c5entry

/-- C5 first detector high-traffic pass at time 110 (window start 50),
threshold 100, over an empty suspicion table. -/
def c5run1 : List SuspiciousIP := detect_high_traffic_ips 110 50 100 c5logs []

/-- C5 second high-traffic pass at time 120 (window start 60), same logs. -/
def c5run2 : List SuspiciousIP := detect_high_traffic_ips 120 60 100 c5logs c5run1

/-- C2 scenario: one access to /admin/ at time 100. -/
def c2log1 : RequestLog :=
  { ip_address := "198.51.100.7", timestamp := 100, path := "/admin/",
    geo := allNullGeo }

/-- C2 scenario: one access to /.env at time 130. -/
def c2log2 : RequestLog :=
  { ip_address := "198.51.100.7", timestamp := 130, path := "/.env",
    geo := allNullGeo }

/-- C2 first sensitive-path pass at time 110 (window start 50), over an
empty suspicion table, seeing only the /admin/ access. -/
def c2run1 : List SuspiciousIP :=
  detect_sensitive_path_access 110 50 sensitivePathsList [c2log1] []

/-- C2 second sensitive-path pass at time 140 (window start 80), with the
record still active and both accesses in the window. -/
def c2run2 : List SuspiciousIP :=
  detect_sensitive_path_access 140 80 sensitivePathsList [c2log1, c2log2] c2run1

/-- C2 amended scenario: the record is deactivated externally between the
runs. -/
def c2deactivated : List SuspiciousIP :=
  c2run1.map (fun r => { r with is_active := false })

/-- C2 amended scenario: a later /.env access at time 150. -/
def c2log3 : RequestLog :=
  { ip_address := "198.51.100.7", timestamp := 150, path := "/.env",
    geo := allNullGeo }

/-- C2 amended second pass at time 200 (window start 140): only the /.env
access is in the window and the record is inactive. -/
def c2run2Amended : List SuspiciousIP :=
  detect_sensitive_path_access 200 140 sensitivePathsList [c2log1, c2log3]
    c2deactivated

/-- C5 witness scenario: the record created by the first run. -/
def c5record : SuspiciousIP := mkHighTraffic 110 "203.0.113.5" 150

/-- C3 scenario: a single active suspicion record. -/
def c3record : SuspiciousIP :=
  { ip_address := "203.0.113.5", reason := .high_traffic,
    description := "High traffic detected: 150 requests in the last hour",
    first_detected := 0, last_detected := 0, request_count := 150,
    sensitive_paths := [], is_active := true }

/-- C3 scenario state. -/
def c3state : EngineState := ⟨[], [c3record], []⟩

/-- C6 scenario: an externally deactivated, recent record. -/
def c6record : SuspiciousIP :=
  { ip_address := "192.0.2.9", reason := .sensitive_access,
    description := "Access to sensitive path: /admin/ (1 times)",
    first_detected := 0, last_detected := 0, request_count := 1,
    sensitive_paths := ["/admin/"], is_active := false }

/-- C6 scenario state. -/
def c6state : EngineState := ⟨[], [c6record], []⟩

/-- C7 scenario: one manually blocked ip. -/
def c7blocked : BlockedIP :=
  { ip_address := "198.51.100.23", created_at := 0, reason := some "manual" }

/-- C7 scenario state. -/
def c7state : SystemState := ⟨⟨fun _ => none, fun _ => none⟩, ⟨[], [], [c7blocked]⟩⟩

/-- C10 scenario: an old but still active record. -/
def c10record : SuspiciousIP :=
  { ip_address := "192.0.2.50", reason := .multiple_failures,
    description := "Multiple authentication attempts: 7 attempts in the last hour",
    first_detected := -20000, last_detected := -20000, request_count := 7,
    sensitive_paths := [], is_active := true }

/-- C10 scenario state. -/
def c10state : EngineState := ⟨[], [c10record], []⟩

/-- C9 scenario: inactive record with last_detected 8 days (11520 minutes)
before a sweep at time 0. -/
def c9eightDays : SuspiciousIP :=
  { ip_address := "192.0.2.80", reason := .high_traffic,
    description := "High traffic detected: 120 requests in the last hour",
    first_detected := -11520, last_detected := -11520, request_count := 120,
    sensitive_paths := [], is_active := false }

/-- C9 scenario: inactive record with last_detected 6 days (8640 minutes)
before a sweep at time 0. -/
def c9sixDays : SuspiciousIP :=
  { ip_address := "192.0.2.81", reason := .high_traffic,
    description := "High traffic detected: 110 requests in the last hour",
    first_detected := -8640, last_detected := -8640, request_count := 110,
    sensitive_paths := [], is_active := false }

theorem fetch_allNull_of_failed {p1 : HttpResult IpApiResponse}
    {p2 : HttpResult CountryIsResponse} (h1 : provider1Failed p1)
    (h2 : provider2Failed p2) : fetch_geolocation_data p1 p2 = allNullGeo := by
  have hfb : countryIsFallback p2 = allNullGeo := by
    cases p2 with
    | err => rfl
    | ok code d =>
        simp only [provider2Failed] at h2
        simp only [countryIsFallback, if_neg h2]
  cases p1 with
  | err => exact hfb
  | ok code d =>
      simp only [provider1Failed, not_and] at h1
      by_cases hc : code = 200
      · have hs : ¬ d.status = some "success" := h1 hc
        simp only [fetch_geolocation_data, if_pos hc, if_neg hs]
        exact hfb
      · simp only [fetch_geolocation_data, if_neg hc]
        exact hfb

/-! ## Helper lemmas -/

theorem foldl_preserve_mem {α β : Type} (P : β → Prop) (step : β → α → β) :
    ∀ (ts : List α), (∀ a ∈ ts, ∀ acc, P acc → P (step acc a)) →
      ∀ acc, P acc → P (ts.foldl step acc)
  | [], _, _, h => h
  | t :: ts, hstep, acc, h =>
      foldl_preserve_mem P step ts
        (fun a ha => hstep a (List.mem_cons_of_mem t ha))
        (step acc t) (hstep t (List.mem_cons_self t ts) acc h)

theorem mem_upsert_of_ne (j : String) (mk : SuspiciousIP)
    (upd : SuspiciousIP → SuspiciousIP) (l : List SuspiciousIP)
    (r : SuspiciousIP) (hr : r ∈ l) (hne : ¬ r.ip_address = j) :
    r ∈ upsert j mk upd l := by
  unfold upsert
  by_cases hc : l.any (fun s => s.ip_address == j) = true
  · rw [if_pos hc]
    have heq : (if r.ip_address == j then upd r else r) = r := by
      simp [hne]
    rw [← heq]
    exact List.mem_map_of_mem _ hr
  · rw [if_neg hc]
    exact List.mem_append_left _ hr

theorem upsert_keeps_active (ip j : String) (mk : SuspiciousIP)
    (upd : SuspiciousIP → SuspiciousIP)
    (hip : ∀ x, (upd x).ip_address = x.ip_address)
    (hact : ∀ x, (upd x).is_active = true)
    (l : List SuspiciousIP)
    (h : ∃ r ∈ l, r.ip_address = ip ∧ r.is_active = true) :
    ∃ r ∈ upsert j mk upd l, r.ip_address = ip ∧ r.is_active = true := by
  obtain ⟨r, hr, hrip, hra⟩ := h
  unfold upsert
  by_cases hc : l.any (fun s => s.ip_address == j) = true
  · rw [if_pos hc]
    refine ⟨if r.ip_address == j then upd r else r,
      List.mem_map_of_mem _ hr, ?_, ?_⟩
    · by_cases hj : (r.ip_address == j) = true
      · rw [if_pos hj, hip r]; exact hrip
      · rw [if_neg hj]; exact hrip
    · by_cases hj : (r.ip_address == j) = true
      · rw [if_pos hj]; exact hact r
      · rw [if_neg hj]; exact hra
  · rw [if_neg hc]
    exact ⟨r, List.mem_append_left _ hr, hrip, hra⟩

theorem mem_of_mem_upsert_inactive (j : String) (mk : SuspiciousIP)
    (upd : SuspiciousIP → SuspiciousIP)
    (hact : ∀ x, (upd x).is_active = true) (hmk : mk.is_active = true)
    (l : List SuspiciousIP) (r : SuspiciousIP)
    (h : r ∈ upsert j mk upd l) (hina : r.is_active = false) : r ∈ l := by
  unfold upsert at h
  by_cases hc : l.any (fun s => s.ip_address == j) = true
  · rw [if_pos hc] at h
    obtain ⟨x, hx, hxe⟩ := List.mem_map.mp h
    by_cases hxj : (x.ip_address == j) = true
    · rw [if_pos hxj] at hxe
      rw [← hxe, hact x] at hina
      cases hina
    · rw [if_neg hxj] at hxe
      rw [← hxe]
      exact hx
  · rw [if_neg hc] at h
    rcases List.mem_append.mp h with h1 | h2
    · exact h1
    · rw [List.mem_singleton.mp h2, hmk] at hina
      cases hina

theorem upsert_preserves_unique (j : String) (mk : SuspiciousIP)
    (upd : SuspiciousIP → SuspiciousIP)
    (hip : ∀ x, (upd x).ip_address = x.ip_address)
    (hmk : mk.ip_address = j)
    (l : List SuspiciousIP) (h : uniqueIps l) :
    uniqueIps (upsert j mk upd l) := by
  unfold upsert
  by_cases hc : l.any (fun s => s.ip_address == j) = true
  · rw [if_pos hc]
    unfold uniqueIps at h ⊢
    rw [List.pairwise_map]
    refine h.imp ?_
    intro a b hab
    have ha : (if a.ip_address == j then upd a else a).ip_address
        = a.ip_address := by
      by_cases haj : (a.ip_address == j) = true
      · rw [if_pos haj, hip a]
      · rw [if_neg haj]
    have hb : (if b.ip_address == j then upd b else b).ip_address
        = b.ip_address := by
      by_cases hbj : (b.ip_address == j) = true
      · rw [if_pos hbj, hip b]
      · rw [if_neg hbj]
    rw [ha, hb]
    exact hab
  · rw [if_neg hc]
    unfold uniqueIps at h ⊢
    rw [List.pairwise_append]
    refine ⟨h, List.pairwise_singleton _ _, ?_⟩
    intro a ha b hb
    rw [List.mem_singleton.mp hb, hmk]
    have hall := List.any_eq_false.mp (Bool.eq_false_iff.mpr hc) a ha
    simp only [beq_iff_eq] at hall
    exact fun hcontra => hall (by exact_mod_cast hcontra)

theorem count_le_one_of_pairwise :
    ∀ (l : List SuspiciousIP), uniqueIps l → ∀ ip : String,
      (l.filter (fun r => r.ip_address == ip)).length ≤ 1 := by
  intro l h ip
  induction l with
  | nil => simp
  | cons a t ih =>
    have hab : ∀ b ∈ t, a.ip_address ≠ b.ip_address :=
      fun b hb => List.rel_of_pairwise_cons h hb
    have ht : uniqueIps t := List.Pairwise.of_cons h
    by_cases hc : (a.ip_address == ip) = true
    · rw [List.filter_cons, if_pos hc]
      have hnil : t.filter (fun r => r.ip_address == ip) = [] := by
        rw [List.filter_eq_nil_iff]
        intro b hb
        have hne := hab b hb
        simp only [beq_iff_eq]
        intro hbe
        exact hne (by rw [beq_iff_eq] at hc; rw [hc, hbe])
      rw [hnil]
      simp
    · rw [List.filter_cons, if_neg hc]
      exact ih ht

theorem mem_of_foldl_backward {α : Type}
    (step : List SuspiciousIP → α → List SuspiciousIP)
    (P : SuspiciousIP → Prop)
    (hstep : ∀ acc a r, P r → r ∈ step acc a → r ∈ acc)
    (r : SuspiciousIP) (hr : P r) :
    ∀ (ts : List α) (acc : List SuspiciousIP), r ∈ ts.foldl step acc → r ∈ acc
  | [], _, h => h
  | t :: ts, acc, h =>
      hstep acc t r hr (mem_of_foldl_backward step P hstep r hr ts _ h)

theorem highStep_unique (now : Int) (window : List RequestLog)
    (acc : List SuspiciousIP) (ip : String) (h : uniqueIps acc) :
    uniqueIps (highStep now window acc ip) :=
  upsert_preserves_unique ip (mkHighTraffic now ip (countIp window ip))
    (updHighTraffic now (countIp window ip)) (fun _ => rfl) rfl acc h

theorem sensitiveStep_unique (now : Int) (window : List RequestLog)
    (acc : List SuspiciousIP) (pr : String × String) (h : uniqueIps acc) :
    uniqueIps (sensitiveStep now window acc pr) :=
  upsert_preserves_unique pr.1
    (mkSensitive now pr.1 pr.2 (countIpPath window pr.1 pr.2))
    (updSensitive now pr.2 (countIpPath window pr.1 pr.2))
    (fun _ => rfl) rfl acc h

theorem authStep_unique (now : Int) (window : List RequestLog)
    (acc : List SuspiciousIP) (ip : String) (h : uniqueIps acc) :
    uniqueIps (authStep now window acc ip) :=
  upsert_preserves_unique ip (mkAuthFailures now ip (countIp window ip))
    (updAuthFailures now (countIp window ip)) (fun _ => rfl) rfl acc h

theorem high_pass_unique (now t : Int) (thr : Nat) (logs : List RequestLog)
    (susp : List SuspiciousIP) (h : uniqueIps susp) :
    uniqueIps (detect_high_traffic_ips now t thr logs susp) :=
  foldl_preserve_mem uniqueIps _ _
    (fun ip _ acc hacc => highStep_unique now _ acc ip hacc) susp h

theorem sensitive_pass_unique (now t : Int) (paths : List String)
    (logs : List RequestLog) (susp : List SuspiciousIP) (h : uniqueIps susp) :
    uniqueIps (detect_sensitive_path_access now t paths logs susp) :=
  foldl_preserve_mem uniqueIps _ _
    (fun pr _ acc hacc => sensitiveStep_unique now _ acc pr hacc) susp h

theorem auth_pass_unique (now t : Int) (logs : List RequestLog)
    (susp : List SuspiciousIP) (h : uniqueIps susp) :
    uniqueIps (detect_auth_failures now t logs susp) :=
  foldl_preserve_mem uniqueIps _ _
    (fun ip _ acc hacc => authStep_unique now _ acc ip hacc) susp h

theorem cleanup_unique (now : Int) (susp : List SuspiciousIP)
    (h : uniqueIps susp) : uniqueIps (cleanup_old_suspicious_ips now susp) :=
  List.Pairwise.sublist (List.filter_sublist susp) h

theorem detect_run_unique (now : Int) (cfg : DetectorConfig) (s : EngineState)
    (h : uniqueIps s.suspicious) :
    uniqueIps (detect_suspicious_ips now cfg s).suspicious :=
  cleanup_unique now _
    (auth_pass_unique now _ s.logs _
      (sensitive_pass_unique now _ sensitivePathsList s.logs _
        (high_pass_unique now _ cfg.high_traffic_threshold s.logs s.suspicious h)))

theorem high_pass_keeps_active (ip : String) (now t : Int) (thr : Nat)
    (logs : List RequestLog) (susp : List SuspiciousIP)
    (h : ∃ r ∈ susp, r.ip_address = ip ∧ r.is_active = true) :
    ∃ r ∈ detect_high_traffic_ips now t thr logs susp,
      r.ip_address = ip ∧ r.is_active = true := by
  refine foldl_preserve_mem
    (fun l => ∃ r ∈ l, r.ip_address = ip ∧ r.is_active = true) _ _ ?_ susp h
  intro j hj acc hacc
  refine upsert_keeps_active ip j _ _ ?_ ?_ acc hacc
  · intro x; rfl
  · intro x; rfl

theorem sensitive_pass_keeps_active (ip : String) (now t : Int)
    (paths : List String) (logs : List RequestLog) (susp : List SuspiciousIP)
    (h : ∃ r ∈ susp, r.ip_address = ip ∧ r.is_active = true) :
    ∃ r ∈ detect_sensitive_path_access now t paths logs susp,
      r.ip_address = ip ∧ r.is_active = true := by
  refine foldl_preserve_mem
    (fun l => ∃ r ∈ l, r.ip_address = ip ∧ r.is_active = true) _ _ ?_ susp h
  intro pr hpr acc hacc
  refine upsert_keeps_active ip pr.1 _ _ ?_ ?_ acc hacc
  · intro x; rfl
  · intro x; rfl

theorem auth_pass_keeps_active (ip : String) (now t : Int)
    (logs : List RequestLog) (susp : List SuspiciousIP)
    (h : ∃ r ∈ susp, r.ip_address = ip ∧ r.is_active = true) :
    ∃ r ∈ detect_auth_failures now t logs susp,
      r.ip_address = ip ∧ r.is_active = true := by
  refine foldl_preserve_mem
    (fun l => ∃ r ∈ l, r.ip_address = ip ∧ r.is_active = true) _ _ ?_ susp h
  intro j hj acc hacc
  refine upsert_keeps_active ip j _ _ ?_ ?_ acc hacc
  · intro x; rfl
  · intro x; rfl

theorem cleanup_keeps_active (ip : String) (now : Int)
    (susp : List SuspiciousIP)
    (h : ∃ r ∈ susp, r.ip_address = ip ∧ r.is_active = true) :
    ∃ r ∈ cleanup_old_suspicious_ips now susp,
      r.ip_address = ip ∧ r.is_active = true := by
  obtain ⟨r, hr, hip2, hact⟩ := h
  refine ⟨r, ?_, hip2, hact⟩
  unfold cleanup_old_suspicious_ips
  rw [List.mem_filter]
  exact ⟨hr, by rw [hact]; simp⟩

theorem detect_run_keeps_active (ip : String) (now : Int)
    (cfg : DetectorConfig) (s : EngineState)
    (h : ∃ r ∈ s.suspicious, r.ip_address = ip ∧ r.is_active = true) :
    ∃ r ∈ (detect_suspicious_ips now cfg s).suspicious,
      r.ip_address = ip ∧ r.is_active = true :=
  cleanup_keeps_active ip now _
    (auth_pass_keeps_active ip now _ s.logs _
      (sensitive_pass_keeps_active ip now _ sensitivePathsList s.logs _
        (high_pass_keeps_active ip now _ cfg.high_traffic_threshold s.logs
          s.suspicious h)))

theorem high_pass_inactive_mem (now t : Int) (thr : Nat)
    (logs : List RequestLog) (susp : List SuspiciousIP) (r : SuspiciousIP)
    (h : r ∈ detect_high_traffic_ips now t thr logs susp)
    (hina : r.is_active = false) : r ∈ susp := by
  refine mem_of_foldl_backward _ (fun x => x.is_active = false) ?_ r hina _ susp h
  intro acc j x hx hmem
  exact mem_of_mem_upsert_inactive j _ _ (fun y => rfl) rfl acc x hmem hx

theorem sensitive_pass_inactive_mem (now t : Int) (paths : List String)
    (logs : List RequestLog) (susp : List SuspiciousIP) (r : SuspiciousIP)
    (h : r ∈ detect_sensitive_path_access now t paths logs susp)
    (hina : r.is_active = false) : r ∈ susp := by
  refine mem_of_foldl_backward _ (fun x => x.is_active = false) ?_ r hina _ susp h
  intro acc pr x hx hmem
  exact mem_of_mem_upsert_inactive pr.1 _ _ (fun y => rfl) rfl acc x hmem hx

theorem auth_pass_inactive_mem (now t : Int) (logs : List RequestLog)
    (susp : List SuspiciousIP) (r : SuspiciousIP)
    (h : r ∈ detect_auth_failures now t logs susp)
    (hina : r.is_active = false) : r ∈ susp := by
  refine mem_of_foldl_backward _ (fun x => x.is_active = false) ?_ r hina _ susp h
  intro acc j x hx hmem
  exact mem_of_mem_upsert_inactive j _ _ (fun y => rfl) rfl acc x hmem hx

theorem detect_run_inactive_mem (now : Int) (cfg : DetectorConfig)
    (s : EngineState) (r : SuspiciousIP)
    (h : r ∈ (detect_suspicious_ips now cfg s).suspicious)
    (hina : r.is_active = false) : r ∈ s.suspicious :=
  high_pass_inactive_mem now _ cfg.high_traffic_threshold s.logs s.suspicious r
    (sensitive_pass_inactive_mem now _ sensitivePathsList s.logs _ r
      (auth_pass_inactive_mem now _ s.logs _ r
        (List.mem_of_mem_filter h) hina) hina) hina

theorem autoblock_suspicious_unchanged (now : Int) (th : Nat)
    (s : EngineState) :
    (auto_block_suspicious_ips now th s).suspicious = s.suspicious := rfl

theorem autoblock_fold_nil (now : Int) (th : Nat) (act : List SuspiciousIP)
    (blocked : List BlockedIP)
    (hcnt : ∀ ip, (act.filter (fun r => r.ip_address == ip)).length < th) :
    ((distinctList (act.map (fun r => r.ip_address))).filter
      (fun ip => decide (th ≤ (act.filter (fun r => r.ip_address == ip)).length))).foldl
      (fun acc ip =>
        if acc.any (fun b => b.ip_address == ip) then acc
        else acc ++ [⟨ip, now,
          some (autoBlockReason
            ((act.filter (fun r => r.ip_address == ip)).length))⟩])
      blocked = blocked := by
  have hips : (distinctList (act.map (fun r => r.ip_address))).filter
      (fun ip => decide (th ≤ (act.filter
        (fun r => r.ip_address == ip)).length)) = [] := by
    rw [List.filter_eq_nil_iff]
    intro ip _
    simp only [decide_eq_true_eq, not_le]
    exact hcnt ip
  rw [hips]
  rfl

/-! ## Claim theorems -/

/-- C1 counterexample: with both cache tiers empty and both providers
failing, resolve of 203.0.113.5 returns the all-null set but DOES write it
to both cache tiers, and the next resolve of the same ip is served from the
cache without touching the providers — contradicting the claim that a total
failure writes nothing and is retried. -/
theorem resolve_caches_total_failure_counterexample :
    (get_geolocation_data 0 .err .err "203.0.113.5" emptyResolverState).data
      = allNullGeo ∧
    (get_geolocation_data 0 .err .err "203.0.113.5"
      emptyResolverState).state.djangoCache (cacheKey "203.0.113.5")
      = some (allNullGeo, 0) ∧
    (get_geolocation_data 0 .err .err "203.0.113.5"
      emptyResolverState).state.dbCache "203.0.113.5"
      = some (allNullGeo, 0) ∧
    (get_geolocation_data 100 .err .err "203.0.113.5"
      (get_geolocation_data 0 .err .err "203.0.113.5"
        emptyResolverState).state).externalCalled = false := by
  decide

/-- C1 (amended): for a public ip missing from both cache tiers, if every
provider fails or times out, resolve returns the all-null attribute set and
WRITES it to both cache tiers at time now; a subsequent resolve of the same
ip within the 24-hour horizon is served the cached all-null failure without
attempting the external providers, and only once both tiers have expired
(more than 24 hours later) are the providers attempted again. -/
theorem resolve_total_failure_writes_caches (now now2 : Int)
    (p1 q1 : HttpResult IpApiResponse) (p2 q2 : HttpResult CountryIsResponse)
    (ip : String) (s : ResolverState)
    (hpriv : is_private_ip ip = false)
    (hdj : s.djangoCache (cacheKey ip) = none)
    (hdb : s.dbCache ip = none)
    (h1 : provider1Failed p1) (h2 : provider2Failed p2) :
    (get_geolocation_data now p1 p2 ip s).data = allNullGeo ∧
    (get_geolocation_data now p1 p2 ip s).externalCalled = true ∧
    (get_geolocation_data now p1 p2 ip s).state.djangoCache (cacheKey ip)
      = some (allNullGeo, now) ∧
    (get_geolocation_data now p1 p2 ip s).state.dbCache ip
      = some (allNullGeo, now) ∧
    (now2 < now + 1440 →
      (get_geolocation_data now2 q1 q2 ip
        (get_geolocation_data now p1 p2 ip s).state).data = allNullGeo ∧
      (get_geolocation_data now2 q1 q2 ip
        (get_geolocation_data now p1 p2 ip s).state).externalCalled = false) ∧
    (now + 1440 < now2 →
      (get_geolocation_data now2 q1 q2 ip
        (get_geolocation_data now p1 p2 ip s).state).externalCalled = true) := by
  have hf := fetch_allNull_of_failed h1 h2
  have hstep : get_geolocation_data now p1 p2 ip s =
      ⟨allNullGeo, ⟨setKey s.djangoCache (cacheKey ip) (allNullGeo, now),
        setKey s.dbCache ip (allNullGeo, now)⟩, true⟩ := by
    unfold get_geolocation_data djangoCacheGet
    rw [hpriv, hdj, hdb]
    simp only [Bool.false_eq_true, if_false, hf]
  have hk : setKey s.djangoCache (cacheKey ip) (allNullGeo, now) (cacheKey ip)
      = some (allNullGeo, now) := by
    unfold setKey
    rw [if_pos rfl]
  rw [hstep]
  refine ⟨rfl, rfl, hk, ?_, ?_, ?_⟩
  · simp [setKey]
  · intro hlt
    constructor
    · simp [get_geolocation_data, djangoCacheGet, hpriv, hk, hlt]
    · simp [get_geolocation_data, djangoCacheGet, hpriv, hk, hlt]
  · intro hgt
    have hnlt : ¬ now2 < now + 1440 := not_lt.mpr (le_of_lt hgt)
    simp [get_geolocation_data, djangoCacheGet, hpriv, hk, hnlt, setKey,
      geo_cache_expired, hgt]

/-- C1 witness: the amended theorem applied at ip 203.0.113.5, empty
caches, both providers erroring, with a second resolve at time 7 (inside
the 24h horizon, cache hit) and one at time 2000 (past the horizon,
providers attempted again). -/
theorem resolve_total_failure_writes_caches_witness :
    (is_private_ip "203.0.113.5" = false ∧
      emptyResolverState.djangoCache (cacheKey "203.0.113.5") = none ∧
      emptyResolverState.dbCache "203.0.113.5" = none ∧
      provider1Failed .err ∧ provider2Failed .err ∧
      (7 : Int) < 5 + 1440 ∧ (5 : Int) + 1440 < 2000) ∧
    (get_geolocation_data 5 .err .err "203.0.113.5" emptyResolverState).data
      = allNullGeo ∧
    (get_geolocation_data 7 .err .err "203.0.113.5"
      (get_geolocation_data 5 .err .err "203.0.113.5"
        emptyResolverState).state).externalCalled = false ∧
    (get_geolocation_data 2000 .err .err "203.0.113.5"
      (get_geolocation_data 5 .err .err "203.0.113.5"
        emptyResolverState).state).externalCalled = true :=
  ⟨⟨by decide, rfl, rfl, trivial, trivial, by decide, by decide⟩,
    (resolve_total_failure_writes_caches 5 7 .err .err .err .err "203.0.113.5"
      emptyResolverState (by decide) rfl rfl trivial trivial).1,
    ((resolve_total_failure_writes_caches 5 7 .err .err .err .err "203.0.113.5"
      emptyResolverState (by decide) rfl rfl trivial trivial).2.2.2.2.1
        (by decide)).2,
    (resolve_total_failure_writes_caches 5 2000 .err .err .err .err
      "203.0.113.5" emptyResolverState (by decide) rfl rfl trivial
      trivial).2.2.2.2.2 (by decide)⟩

/-- C2 counterexample: ip 198.51.100.7 accesses /admin/ once, a first
sensitive-path pass flags it (active), it then accesses /.env, and a second
pass runs while the record is still active: the second pass skips the ip
entirely, leaving sensitivePaths = ["/admin/"] and requestCount = 1 — not
the accumulated set and count the claim states. -/
theorem sensitive_accumulation_counterexample :
    c2run2 = c2run1 ∧
    c2run2.map (fun r => r.sensitive_paths) = [["/admin/"]] ∧
    c2run2.map (fun r => r.request_count) = [1] ∧
    c2run2.all (fun r => !(r.sensitive_paths.contains "/.env")) = true := by
  decide

/-- C2 (amended): same two accesses and two detector runs, but the record
is deactivated externally between the runs and the /admin/ access has aged
out of the second window: the second sensitive-path pass then accumulates,
ending with sensitivePaths = ["/admin/", "/.env"], requestCount = 2 and the
record active again. -/
theorem sensitive_accumulation_after_deactivation :
    c2run2Amended.map (fun r => r.ip_address) = ["198.51.100.7"] ∧
    c2run2Amended.map (fun r => r.sensitive_paths) = [["/admin/", "/.env"]] ∧
    c2run2Amended.map (fun r => r.request_count) = [2] ∧
    c2run2Amended.map (fun r => r.is_active) = [true] := by
  decide

/-- C3: the detector preserves at-most-one-SuspiciousIP-row-per-ip, the
per-ip grouped active suspicion count is at most 1, and whenever
auto_block_threshold is at least 2 an Auto-Blocker run creates no BlockedIP
row. -/
theorem unique_suspicion_autoblock_noop (now nowB : Int)
    (cfg : DetectorConfig) (s : EngineState) (th : Nat)
    (h : uniqueIps s.suspicious) (hth : 2 ≤ th) :
    uniqueIps (detect_suspicious_ips now cfg s).suspicious ∧
    (∀ ip, ((s.suspicious.filter (fun r => r.is_active)).filter
      (fun r => r.ip_address == ip)).length ≤ 1) ∧
    (auto_block_suspicious_ips nowB th s).blocked = s.blocked := by
  have hcnt : ∀ ip, ((s.suspicious.filter (fun r => r.is_active)).filter
      (fun r => r.ip_address == ip)).length ≤ 1 := fun ip =>
    count_le_one_of_pairwise _
      (List.Pairwise.sublist (List.filter_sublist _) h) ip
  refine ⟨detect_run_unique now cfg s h, hcnt, ?_⟩
  exact autoblock_fold_nil nowB th _ s.blocked
    (fun ip => lt_of_le_of_lt (hcnt ip) (by omega))

/-- C3 witness: the theorem applied to a state holding one active record,
with threshold 2. -/
theorem unique_suspicion_autoblock_noop_witness :
    (uniqueIps c3state.suspicious ∧ 2 ≤ 2) ∧
    (auto_block_suspicious_ips 0 2 c3state).blocked = c3state.blocked :=
  ⟨⟨by simp [uniqueIps, c3state], by decide⟩,
    (unique_suspicion_autoblock_noop 0 0 ⟨100, 60⟩ c3state 2
      (by simp [uniqueIps, c3state]) (by decide)).2.2⟩

/-- C4: 172.17.0.1 lies in 172.16.0.0/12 but is_private_ip tests only the
string prefix "172.16.", so the middleware treats it as public: the
resolver performs an external call and writes the cache, against the
specified private-range short-circuit. -/
theorem private_range_172_16_12_divergence :
    inRange172_16_12 172 17 ∧
    ipv4String 172 17 0 1 = "172.17.0.1" ∧
    is_private_ip (ipv4String 172 17 0 1) = false ∧
    (get_geolocation_data 0 .err .err (ipv4String 172 17 0 1)
      emptyResolverState).externalCalled = true ∧
    ¬ (get_geolocation_data 0 .err .err (ipv4String 172 17 0 1)
      emptyResolverState).state.djangoCache
        (cacheKey (ipv4String 172 17 0 1)) = none := by
  refine ⟨⟨rfl, by decide, by decide⟩, by decide, by decide, by decide, by decide⟩

set_option maxRecDepth 40000 in
/-- C5 counterexample: 150 requests from one ip with threshold 100; the
first high-traffic pass at time 110 creates the active record, and a second
pass at time 120 over the same rows leaves the record completely untouched:
requestCount stays 150 but lastDetected stays 110 instead of being updated
to 120 as the claim states. -/
theorem high_traffic_rerun_counterexample :
    c5run2 = c5run1 ∧
    c5run2.map (fun r => r.request_count) = [150] ∧
    c5run2.map (fun r => r.last_detected) = [110] ∧
    ¬ c5run2.map (fun r => r.last_detected) = [120] := by
  decide

/-- C5 (amended): the high-traffic pass skips every ip that already has an
active SuspiciousIP record, so re-running it leaves such a record verbatim
in the table: requestCount keeps its value and lastDetected is NOT updated. -/
theorem high_traffic_pass_skips_active_record (now t : Int) (thr : Nat)
    (logs : List RequestLog) (susp : List SuspiciousIP) (r : SuspiciousIP)
    (h : r ∈ susp) (ha : r.is_active = true) :
    r ∈ detect_high_traffic_ips now t thr logs susp := by
  refine foldl_preserve_mem (fun l => r ∈ l) _ _ ?_ susp h
  intro j hj acc hacc
  have hcond := (List.mem_filter.mp hj).2
  simp only [Bool.and_eq_true, Bool.not_eq_true'] at hcond
  have hrip : r.ip_address ∈ activeIps susp := by
    unfold activeIps
    exact List.mem_map_of_mem _ (List.mem_filter.mpr ⟨h, ha⟩)
  have hne : ¬ r.ip_address = j := by
    intro he
    have hj2 : (activeIps susp).contains j = true :=
      List.elem_iff.mpr (he ▸ hrip)
    rw [hcond.2] at hj2
    cases hj2
  exact mem_upsert_of_ne j _ _ acc r hacc hne

/-- C5 witness: the amended theorem applied to the record of the first run
and the 150-row log. -/
theorem high_traffic_pass_skips_active_record_witness :
    (c5record ∈ [c5record] ∧ c5record.is_active = true) ∧
    c5record ∈ detect_high_traffic_ips 120 60 100 c5logs [c5record] :=
  ⟨⟨by decide, rfl⟩,
    high_traffic_pass_skips_active_record 120 60 100 c5logs [c5record] c5record
      (by decide) rfl⟩

/-- C6 counterexample: negation of the claim — no detector or auto-blocker
run ever produces an inactive record that was not already present,
unchanged, in its input state: the engine never deactivates a record. -/
theorem detector_never_deactivates_counterexample :
    ¬ ∃ (now : Int) (cfg : DetectorConfig) (s : EngineState) (th : Nat)
        (r : SuspiciousIP),
        (r ∈ (detect_suspicious_ips now cfg s).suspicious ∨
          r ∈ (auto_block_suspicious_ips now th s).suspicious) ∧
        r.is_active = false ∧ ¬ r ∈ s.suspicious := by
  rintro ⟨now, cfg, s, th, r, hmem, hina, hnot⟩
  cases hmem with
  | inl hm => exact hnot (detect_run_inactive_mem now cfg s r hm hina)
  | inr hm => exact hnot hm

/-- C6 (amended): the detection engine never deactivates a record — every
inactive record present after a detector run was already present, inactive,
in the state before the run (deactivation only happens externally), and an
auto-blocker run never touches the SuspiciousIP table at all. -/
theorem inactive_records_only_from_outside (now nowB : Int)
    (cfg : DetectorConfig) (th : Nat) (s : EngineState) (r : SuspiciousIP)
    (h : r ∈ (detect_suspicious_ips now cfg s).suspicious)
    (hina : r.is_active = false) :
    r ∈ s.suspicious ∧
    (auto_block_suspicious_ips nowB th s).suspicious = s.suspicious :=
  ⟨detect_run_inactive_mem now cfg s r h hina, rfl⟩

/-- C6 witness: the amended theorem applied to a recent externally
deactivated record that survives a detector run. -/
theorem inactive_records_only_from_outside_witness :
    (c6record ∈ (detect_suspicious_ips 0 ⟨100, 60⟩ c6state).suspicious ∧
      c6record.is_active = false) ∧
    c6record ∈ c6state.suspicious :=
  ⟨⟨by decide, rfl⟩,
    (inactive_records_only_from_outside 0 0 ⟨100, 60⟩ 3 c6state c6record
      (by decide) rfl).1⟩

/-- C7: a request from a blocked ip is answered with the 403 message
embedding that ip, the whole system state is left unchanged, and the
geolocation resolver is not called (hence no RequestLog row is appended). -/
theorem blocked_ip_rejected_no_side_effects (now : Int)
    (p1 : HttpResult IpApiResponse) (p2 : HttpResult CountryIsResponse)
    (ip path : String) (s : SystemState)
    (h : is_ip_blocked s.engine.blocked ip = true) :
    middleware_call now p1 p2 ip path s =
      ⟨.forbidden (forbiddenMessage ip), s, false⟩ ∧
    ∃ pre post, forbiddenMessage ip = pre ++ (ip ++ post) := by
  refine ⟨?_, "Access denied. Your IP address (", ") has been blocked.", ?_⟩
  · unfold middleware_call
    rw [if_pos h]
  · unfold forbiddenMessage
    rw [String.append_assoc]

/-- C7 witness: the theorem applied to a state blocking 198.51.100.23. -/
theorem blocked_ip_rejected_no_side_effects_witness :
    is_ip_blocked c7state.engine.blocked "198.51.100.23" = true ∧
    (middleware_call 0 .err .err "198.51.100.23" "/home/" c7state =
      ⟨.forbidden (forbiddenMessage "198.51.100.23"), c7state, false⟩ ∧
    ∃ pre post, forbiddenMessage "198.51.100.23"
      = pre ++ ("198.51.100.23" ++ post)) :=
  ⟨by decide,
    blocked_ip_rejected_no_side_effects 0 .err .err "198.51.100.23" "/home/"
      c7state (by decide)⟩

/-- C8: for a well-formed ip not yet blocked, the first block_ip call
reports created, the second reports alreadyExists, leaves the table
unchanged, and exactly one BlockedIP row for that ip exists afterwards. -/
theorem block_ip_idempotent (now1 now2 : Int) (ip : String)
    (reason1 reason2 : Option String) (blocked : List BlockedIP)
    (hv : is_valid_ip ip = true)
    (habs : blocked.any (fun b => b.ip_address == ip) = false) :
    (block_ip now1 ip reason1 blocked).1 = .created ∧
    (block_ip now2 ip reason2 (block_ip now1 ip reason1 blocked).2).1
      = .alreadyExists ∧
    (block_ip now2 ip reason2 (block_ip now1 ip reason1 blocked).2).2
      = (block_ip now1 ip reason1 blocked).2 ∧
    ((block_ip now2 ip reason2
        (block_ip now1 ip reason1 blocked).2).2.filter
      (fun b => b.ip_address == ip)).length = 1 := by
  have hb1 : block_ip now1 ip reason1 blocked =
      (.created, blocked ++ [⟨ip, now1, reason1⟩]) := by
    unfold block_ip
    rw [hv, habs]
    rfl
  have hany : ((blocked ++ [(⟨ip, now1, reason1⟩ : BlockedIP)]).any
      (fun b => b.ip_address == ip)) = true := by
    rw [List.any_append]
    simp
  have hb2 : block_ip now2 ip reason2 (blocked ++ [⟨ip, now1, reason1⟩]) =
      (.alreadyExists, blocked ++ [⟨ip, now1, reason1⟩]) := by
    unfold block_ip
    rw [hv, hany]
    rfl
  have hnil : blocked.filter (fun b => b.ip_address == ip) = [] := by
    rw [List.filter_eq_nil_iff]
    intro b hb
    exact List.any_eq_false.mp habs b hb
  rw [hb1]
  dsimp only
  rw [hb2]
  refine ⟨rfl, rfl, rfl, ?_⟩
  dsimp only
  rw [List.filter_append, hnil]
  simp

/-- C8 witness: the theorem applied to ip 203.0.113.44 over an empty
blocklist. -/
theorem block_ip_idempotent_witness :
    (is_valid_ip "203.0.113.44" = true ∧
      (([] : List BlockedIP).any
        (fun b => b.ip_address == "203.0.113.44")) = false) ∧
    (block_ip 1 "203.0.113.44" (some "abuse") []).1 = .created ∧
    (block_ip 2 "203.0.113.44" none
      (block_ip 1 "203.0.113.44" (some "abuse") []).2).1 = .alreadyExists ∧
    ((block_ip 2 "203.0.113.44" none
        (block_ip 1 "203.0.113.44" (some "abuse") []).2).2.filter
      (fun b => b.ip_address == "203.0.113.44")).length = 1 :=
  ⟨⟨by decide, rfl⟩,
    (block_ip_idempotent 1 2 "203.0.113.44" (some "abuse") none []
      (by decide) rfl).1,
    (block_ip_idempotent 1 2 "203.0.113.44" (some "abuse") none []
      (by decide) rfl).2.1,
    (block_ip_idempotent 1 2 "203.0.113.44" (some "abuse") none []
      (by decide) rfl).2.2.2⟩

/-- C9: the retention sweep keeps exactly the rows that are active or whose
last_detected is within 7 days (10080 minutes) of the sweep time — so an
inactive record 8 days old is deleted and one 6 days old is retained. -/
theorem retention_sweep_exact :
    (∀ (now : Int) (susp : List SuspiciousIP) (r : SuspiciousIP),
      r ∈ cleanup_old_suspicious_ips now susp ↔
        r ∈ susp ∧ (r.is_active = true ∨ now - 10080 ≤ r.last_detected)) ∧
    cleanup_old_suspicious_ips 0 [c9eightDays, c9sixDays] = [c9sixDays] := by
  constructor
  · intro now susp r
    unfold cleanup_old_suspicious_ips
    rw [List.mem_filter]
    apply and_congr_right
    intro _
    cases hact : r.is_active with
    | true => simp [hact]
    | false => simp [hact, not_lt]
  · decide

/-- C10: an active suspicion record survives every detector run (a record
with its ip remains, still active) and every auto-blocker run (which never
writes the SuspiciousIP table), regardless of the record's age. -/
theorem active_records_survive_runs (now nowB : Int) (cfg : DetectorConfig)
    (th : Nat) (s : EngineState) (r : SuspiciousIP)
    (h : r ∈ s.suspicious) (ha : r.is_active = true) :
    (∃ r2 ∈ (detect_suspicious_ips now cfg s).suspicious,
      r2.ip_address = r.ip_address ∧ r2.is_active = true) ∧
    (auto_block_suspicious_ips nowB th s).suspicious = s.suspicious :=
  ⟨detect_run_keeps_active r.ip_address now cfg s ⟨r, h, rfl, ha⟩, rfl⟩

/-- C10 witness: the theorem applied to an active record 20000 minutes old
(far beyond the 7-day horizon), which survives a detector run. -/
theorem active_records_survive_runs_witness :
    (c10record ∈ c10state.suspicious ∧ c10record.is_active = true) ∧
    (∃ r2 ∈ (detect_suspicious_ips 0 ⟨100, 60⟩ c10state).suspicious,
      r2.ip_address = c10record.ip_address ∧ r2.is_active = true) :=
  ⟨⟨by decide, rfl⟩,
    (active_records_survive_runs 0 0 ⟨100, 60⟩ 3 c10state c10record
      (by decide) rfl).1⟩

end IpTracking
